import Mathlib

/-!
Shallow embedding of `src/code_executor.py` (class `CodeExecutor`), a
multi-language code execution service: per-request temporary workspaces,
compile/run pipelines for Python, Java, C and C++, a shared 10 second
deadline, and a dispatcher `execute` that routes on a case-insensitive
language identifier.

Environment effects are resolved by an explicit oracle: each
`subprocess.run` call is resolved by a `ProcEvent` (normal completion with
captured streams and elapsed wall time, `TimeoutExpired`,
`FileNotFoundError`, or any other exception), `tempfile.mkdtemp` by a
`MkdtempEvent` and the source-file write by an optional `WriteExn`, both
of which distinguish `FileNotFoundError` from other exceptions because
the runners' `except FileNotFoundError` clauses catch a
`FileNotFoundError` raised anywhere in their `try` block.  The
filesystem is abstracted to the list of existing directory names;
`shutil.rmtree(dir, ignore_errors=True)` is modelled as removing `dir`
(its `ignore_errors` flag only suppresses exceptions).  Besides the result
dictionary, each run is instrumented with the files written, the argv
vectors handed to `subprocess.run`, and the exception that escaped to the
caller when one does, so that claims about "no process is spawned", "the
run stage never starts" or "never propagates an exception" are statable.
-/

attribute [local semireducible] Rat.add Rat.sub Rat.mul Rat.inv

namespace CodeExecutor

/-- Wall-clock deadline in seconds: `CodeExecutor.TIMEOUT = 10`. -/
def TIMEOUT : ℕ := 10

/-- Python `round(x, 3)` as used on the measured elapsed seconds:
the nearest multiple of 1/1000, here written as ⌊1000q + 1/2⌋ / 1000 with
the floor expressed through `Int.fdiv` on numerator and denominator so
that concrete values evaluate by kernel reduction.  (Python uses banker's
rounding at exact half-way ties and this rounds half up; no claim depends
on tie behaviour.) -/
def round3 (q : ℚ) : ℚ :=
  ((Int.fdiv (2 * q.num * 1000 + q.den) (2 * q.den) : ℤ) : ℚ) / 1000

/-- Python `str.lower()` (ASCII case mapping, as the language identifiers
here are ASCII), written over the character list so it evaluates by
kernel reduction. -/
def pyLower (s : String) : String := ⟨s.data.map Char.toLower⟩

/-- Python `str.upper()` (ASCII case mapping), written over the character
list so it evaluates by kernel reduction. -/
def pyUpper (s : String) : String := ⟨s.data.map Char.toUpper⟩

/-- Fuelled worker for `pySplit`: scan the character list, cutting at each
occurrence of `sep` (like Python `str.split(sep)` and `String.splitOn`).
The fuel only serves structural recursion; it is spent one character per
step while each step consumes at least one character, so starting from
the list's length it never runs out for nonempty `sep`. -/
def splitOnCharsFuel (sep : List Char) : Nat → List Char → List Char → List (List Char)
  | _, [], acc => [acc.reverse]
  | 0, l, acc => [acc.reverse ++ l]
  | fuel + 1, c :: rest, acc =>
      if sep.isPrefixOf (c :: rest) then
        acc.reverse :: splitOnCharsFuel sep fuel (List.drop sep.length (c :: rest)) []
      else
        splitOnCharsFuel sep fuel rest (c :: acc)

/-- Python `s.split(sep)` for nonempty `sep` (for empty `sep` Python
raises; the guard returns `[s]`, an unused case since every separator in
this file is nonempty). -/
def pySplit (s sep : String) : List String :=
  if sep.data = [] then [s]
  else (splitOnCharsFuel sep.data s.data.length s.data []).map (fun l => ⟨l⟩)

/-- Captured fields of a completed `subprocess.run` call. -/
structure ProcOutput where
  returncode : Int
  stdout : String
  stderr : String
deriving Repr, DecidableEq

/-- How the environment resolves one `subprocess.run` call: normal
completion (with the call's wall-clock duration in seconds),
`subprocess.TimeoutExpired`, `FileNotFoundError` (executable lookup
failed), or any other exception with message `str(e)`. -/
inductive ProcEvent where
  | completed (out : ProcOutput) (elapsed : ℚ)
  | timeoutExpired
  | fileNotFound (msg : String)
  | otherExn (msg : String)
deriving Repr, DecidableEq

/-- Result dictionary shape: keys `success`, `output`, `error`,
`executionTime`. -/
structure ExecResult where
  success : Bool
  output : String
  error : Option String
  executionTime : ℚ
deriving Repr, DecidableEq

/-- Message `f"Execution timeout ({TIMEOUT}s limit exceeded)"`. -/
def timeoutMsg : String := "Execution timeout (" ++ toString TIMEOUT ++ "s limit exceeded)"

/-- Result returned from every `except subprocess.TimeoutExpired` handler. -/
def timeoutResult : ExecResult :=
  { success := false, output := "", error := some timeoutMsg,
    executionTime := (TIMEOUT : ℚ) }

/-- Result returned from every generic `except Exception as e` handler:
`error = str(e)`. -/
def exnResult (m : String) : ExecResult :=
  { success := false, output := "", error := some m, executionTime := 0 }

/-- Result returned when a compiler exits nonzero: the diagnostics behind
the marker `Compilation Error:` and a newline. -/
def compileErrorResult (diagnostics : String) : ExecResult :=
  { success := false, output := "",
    error := some ("Compilation Error:\n" ++ diagnostics), executionTime := 0 }

/-- Message of `execute_java`'s `except FileNotFoundError` handler. -/
def javaFnfMsg : String := "Java compiler (javac) not found. Please install JDK."

/-- Result of `execute_java`'s `except FileNotFoundError` handler. -/
def javaFnfResult : ExecResult :=
  { success := false, output := "", error := some javaFnfMsg, executionTime := 0 }

/-- Message of `execute_c_cpp`'s `except FileNotFoundError` handler:
`f"{compiler.upper()} compiler not found. Please install GCC/G++."`. -/
def ccFnfMsg (compiler : String) : String :=
  pyUpper compiler ++ " compiler not found. Please install GCC/G++."

/-- Result of `execute_c_cpp`'s `except FileNotFoundError` handler. -/
def ccFnfResult (compiler : String) : ExecResult :=
  { success := false, output := "", error := some (ccFnfMsg compiler),
    executionTime := 0 }

/-- Python `str.split()` with no argument: split on whitespace runs,
dropping empty pieces.  (Python's whitespace set also has some rarer code
points; the claims only involve ASCII whitespace.) -/
def pySplitWs (s : String) : List String :=
  ((s.data.splitOnP Char.isWhitespace).filter (fun t => t ≠ [])).map (fun l => ⟨l⟩)

/-- Python substring test `pat in s` for nonempty `pat`, expressed through
the same splitting primitive the class-name extractor uses: `pat` occurs
in `s` iff splitting `s` on `pat` yields at least two pieces. -/
def containsSub (s pat : String) : Bool := 2 ≤ (pySplit s pat).length

/-- Class-name discovery in `execute_java`:
`class_name = code.split("public class ")[1].split()[0].split("{")[0]`
guarded by `if "public class " in code`, defaulting to `"Main"`.  The
`[0]` index raises `IndexError` ("list index out of range") when the text
after the first occurrence is empty or all whitespace; that raise is
modelled with `Except.error` and lands in the generic exception handler. -/
def extractClassName (code : String) : Except String String :=
  if containsSub code "public class " then
    match pySplitWs ((pySplit code "public class ").getD 1 "") with
    | [] => Except.error "list index out of range"
    | t :: _ => Except.ok ((pySplit t "\x7b").headI)
  else Except.ok "Main"

/-- Outcome of `tempfile.mkdtemp()`: a fresh directory name, a
`FileNotFoundError` (raised e.g. when no usable temporary directory
exists on the host), or any other exception.  Either raise reaches the
matching `except` clause of the runner with `temp_dir` still `None`, so
the `finally` cleanup is a no-op; the distinction matters because the
runners' `except FileNotFoundError` clauses catch a `FileNotFoundError`
raised anywhere in the `try` block, not only at the subprocess calls. -/
inductive MkdtempEvent where
  | ok (dir : String)
  | fnf (msg : String)
  | exn (msg : String)
deriving Repr, DecidableEq

/-- Exception raised by the source-file write (`open`/`f.write`): a
`FileNotFoundError`, or any other exception.  As with `mkdtemp`, a
`FileNotFoundError` here is caught by the runner's
`except FileNotFoundError` clause, every other exception by the generic
`except Exception` clause. -/
inductive WriteExn where
  | fnf (msg : String)
  | exn (msg : String)
deriving Repr, DecidableEq

/-- Exception escaping a runner to its caller.  The only such path in
`code_executor.py`: `execute_c_cpp`'s `except FileNotFoundError` handler
builds its message with `f"{compiler.upper()} ..."`, and when the
`FileNotFoundError` was raised by `mkdtemp` the local `compiler` was
never assigned, so the handler itself raises `UnboundLocalError` naming
that local; nothing in the module catches it. -/
inductive Escaped where
  | unboundLocalError (name : String)
deriving Repr, DecidableEq

/-- Environment oracle for one `execute_python` call. -/
structure PyOracle where
  runEv : ProcEvent
deriving Repr, DecidableEq

/-- Environment oracle for one `execute_java` call.  `write = some e`
means the source-file write raised the exception `e`; `none` means it
succeeded. -/
structure JavaOracle where
  mkdtemp : MkdtempEvent
  write : Option WriteExn
  compileEv : ProcEvent
  runEv : ProcEvent
deriving Repr, DecidableEq

/-- Environment oracle for one `execute_c_cpp` call. -/
structure CCOracle where
  mkdtemp : MkdtempEvent
  write : Option WriteExn
  compileEv : ProcEvent
  runEv : ProcEvent
deriving Repr, DecidableEq

/-- Environment oracle for one `execute` call, holding one oracle per
runner the dispatcher may select. -/
structure ExecOracle where
  py : PyOracle
  java : JavaOracle
  cc : CCOracle
deriving Repr, DecidableEq

/-- Observable effects of one runner invocation together with its result:
`fsAfter` is the list of directories existing after the call, `written`
the files written as (path, contents) pairs, `spawned` the argv vectors
handed to `subprocess.run` (in order), and `raised` the exception that
escaped to the caller, if any — when `raised = some e` the call raised
`e` instead of returning and the caller never receives the `result`
field (it holds the placeholder `noResult`). -/
structure RunTrace where
  result : ExecResult
  fsAfter : List String
  written : List (String × String)
  spawned : List (List String)
  raised : Option Escaped := none
deriving Repr, DecidableEq

/-- Placeholder standing in the `result` field of a trace whose call
raised instead of returning: the caller receives the escaped exception
and this value is never delivered. -/
def noResult : ExecResult :=
  { success := false, output := "", error := none, executionTime := 0 }

/-- Result and effects of a runner's `try:` block body, before the
`finally:` cleanup determines the final filesystem state. -/
structure BodyOut where
  result : ExecResult
  written : List (String × String)
  spawned : List (List String)
deriving Repr, DecidableEq

/-- Abstract path of `sys.executable`, the live interpreter that is
already running the service (so locating it cannot fail). -/
def pyExe : String := "sys.executable"

/-- `CodeExecutor.execute_python`: run the interpreter on the submitted
code with the request's stdin; `success` is `returncode == 0`, `error` is
the captured stderr when nonempty and `None` otherwise, `executionTime`
the measured wall time of the call rounded to milliseconds.  Timeouts and
exceptions map to the corresponding handler results. -/
def execute_python (code input : String) (o : PyOracle) : ExecResult :=
  match o.runEv with
  | .completed r elapsed =>
      { success := r.returncode == 0, output := r.stdout,
        error := if r.stderr = "" then none else some r.stderr,
        executionTime := round3 elapsed }
  | .timeoutExpired => timeoutResult
  | .fileNotFound m => exnResult m
  | .otherExn m => exnResult m

/-- Path `os.path.join(temp_dir, f"{class_name}.java")` (POSIX join). -/
def javaFilePath (dir n : String) : String := dir ++ "/" ++ n ++ ".java"

/-- Body of `execute_java`'s `try:` block after `mkdtemp` succeeded with
directory `dir`: extract the class name, write `{class_name}.java`, run
`javac`, and on zero compiler exit run `java -cp temp_dir class_name`.
Exceptional events map to the corresponding handler results; on a compile
failure `executionTime` is the literal `0` from the source. -/
def javaBody (code : String) (o : JavaOracle) (dir : String) : BodyOut :=
  match extractClassName code with
  | .error m => { result := exnResult m, written := [], spawned := [] }
  | .ok className =>
    match o.write with
    | some (.fnf _) => { result := javaFnfResult, written := [], spawned := [] }
    | some (.exn m) => { result := exnResult m, written := [], spawned := [] }
    | none =>
      let jf := javaFilePath dir className
      match o.compileEv with
      | .timeoutExpired =>
          { result := timeoutResult, written := [(jf, code)],
            spawned := [["javac", jf]] }
      | .fileNotFound _ =>
          { result := javaFnfResult, written := [(jf, code)],
            spawned := [["javac", jf]] }
      | .otherExn m =>
          { result := exnResult m, written := [(jf, code)],
            spawned := [["javac", jf]] }
      | .completed c celap =>
        if c.returncode ≠ 0 then
          { result := compileErrorResult c.stderr, written := [(jf, code)],
            spawned := [["javac", jf]] }
        else
          match o.runEv with
          | .timeoutExpired =>
              { result := timeoutResult, written := [(jf, code)],
                spawned := [["javac", jf], ["java", "-cp", dir, className]] }
          | .fileNotFound _ =>
              { result := javaFnfResult, written := [(jf, code)],
                spawned := [["javac", jf], ["java", "-cp", dir, className]] }
          | .otherExn m =>
              { result := exnResult m, written := [(jf, code)],
                spawned := [["javac", jf], ["java", "-cp", dir, className]] }
          | .completed r relap =>
              { result :=
                  { success := r.returncode == 0, output := r.stdout,
                    error := if r.stderr = "" then none else some r.stderr,
                    executionTime := round3 (celap + relap) },
                written := [(jf, code)],
                spawned := [["javac", jf], ["java", "-cp", dir, className]] }

/-- `CodeExecutor.execute_java`: create a workspace, run the `try:` body,
and apply the `finally:` cleanup
`if temp_dir and os.path.exists(temp_dir): shutil.rmtree(temp_dir, ignore_errors=True)`
on every exit path.  If `mkdtemp` itself raised, `temp_dir` is still
`None` and cleanup is a no-op: a `FileNotFoundError` there is caught by
the `except FileNotFoundError` clause (whose message is a constant
string, so it returns normally), any other exception by the generic
handler. -/
def execute_java (code input : String) (o : JavaOracle) (fs : List String) : RunTrace :=
  match o.mkdtemp with
  | .fnf _ => { result := javaFnfResult, fsAfter := fs, written := [], spawned := [] }
  | .exn m => { result := exnResult m, fsAfter := fs, written := [], spawned := [] }
  | .ok dir =>
    let b := javaBody code o dir
    { result := b.result,
      fsAfter := if dir ∈ dir :: fs then (dir :: fs).erase dir else dir :: fs,
      written := b.written, spawned := b.spawned }

/-- Path `os.path.join(temp_dir, f"main{ext}")` (POSIX join). -/
def ccSourceFile (dir ext : String) : String := dir ++ "/main" ++ ext

/-- Path `os.path.join(temp_dir, "program")`: the compiler's `-o` target
on a POSIX host (`os.name != 'nt'`). -/
def ccOutputFile (dir : String) : String := dir ++ "/program"

/-- Body of `execute_c_cpp`'s `try:` block after `mkdtemp` succeeded:
pick extension and compiler from the (already normalized) language, write
`main.c` / `main.cpp`, compile with `-o` to `program` inside the
workspace (POSIX host: `os.name != 'nt'`), and on zero compiler exit run
the produced binary. -/
def ccBody (code language : String) (o : CCOracle) (dir : String) : BodyOut :=
  let ext := if language = "c" then ".c" else ".cpp"
  let compiler := if language = "c" then "gcc" else "g++"
  let sourceFile := ccSourceFile dir ext
  let outputFile := ccOutputFile dir
  match o.write with
  | some (.fnf _) => { result := ccFnfResult compiler, written := [], spawned := [] }
  | some (.exn m) => { result := exnResult m, written := [], spawned := [] }
  | none =>
    match o.compileEv with
    | .timeoutExpired =>
        { result := timeoutResult, written := [(sourceFile, code)],
          spawned := [[compiler, sourceFile, "-o", outputFile]] }
    | .fileNotFound _ =>
        { result := ccFnfResult compiler, written := [(sourceFile, code)],
          spawned := [[compiler, sourceFile, "-o", outputFile]] }
    | .otherExn m =>
        { result := exnResult m, written := [(sourceFile, code)],
          spawned := [[compiler, sourceFile, "-o", outputFile]] }
    | .completed c celap =>
      if c.returncode ≠ 0 then
        { result := compileErrorResult c.stderr, written := [(sourceFile, code)],
          spawned := [[compiler, sourceFile, "-o", outputFile]] }
      else
        match o.runEv with
        | .timeoutExpired =>
            { result := timeoutResult, written := [(sourceFile, code)],
              spawned := [[compiler, sourceFile, "-o", outputFile], [outputFile]] }
        | .fileNotFound _ =>
            { result := ccFnfResult compiler, written := [(sourceFile, code)],
              spawned := [[compiler, sourceFile, "-o", outputFile], [outputFile]] }
        | .otherExn m =>
            { result := exnResult m, written := [(sourceFile, code)],
              spawned := [[compiler, sourceFile, "-o", outputFile], [outputFile]] }
        | .completed r relap =>
            { result :=
                { success := r.returncode == 0, output := r.stdout,
                  error := if r.stderr = "" then none else some r.stderr,
                  executionTime := round3 (celap + relap) },
              written := [(sourceFile, code)],
              spawned := [[compiler, sourceFile, "-o", outputFile], [outputFile]] }

/-- `CodeExecutor.execute_c_cpp`: workspace creation, `try:` body, and the
same `finally:` cleanup discipline as the Java runner — with one
divergence: when `mkdtemp` raises `FileNotFoundError`, the
`except FileNotFoundError` handler evaluates `f"{compiler.upper()} ..."`
before the `try:` body ever assigned the local `compiler`, so the handler
raises `UnboundLocalError` about that local; the `finally:` block runs
(`temp_dir` is `None`, no cleanup) and the exception escapes to the
caller instead of a result dictionary being returned. -/
def execute_c_cpp (code input language : String) (o : CCOracle) (fs : List String) : RunTrace :=
  match o.mkdtemp with
  | .fnf _ =>
      { result := noResult, fsAfter := fs, written := [], spawned := [],
        raised := some (Escaped.unboundLocalError "compiler") }
  | .exn m => { result := exnResult m, fsAfter := fs, written := [], spawned := [] }
  | .ok dir =>
    let b := ccBody code language o dir
    { result := b.result,
      fsAfter := if dir ∈ dir :: fs then (dir :: fs).erase dir else dir :: fs,
      written := b.written, spawned := b.spawned }

/-- `CodeExecutor.execute`: lowercase the language identifier, dispatch to
the matching runner (`c`, `cpp` and `c++` all reach `execute_c_cpp`, with
`c++` normalized to `cpp`), and answer any other identifier with the
`Unsupported language` result built from the lowercased identifier,
without touching the filesystem or spawning anything. -/
def execute (language code input : String) (o : ExecOracle) (fs : List String) : RunTrace :=
  let lang := pyLower language
  if lang = "python" then
    { result := execute_python code input o.py, fsAfter := fs,
      written := [], spawned := [[pyExe, "-c", code]] }
  else if lang = "java" then
    execute_java code input o.java fs
  else if lang = "c" ∨ lang = "cpp" ∨ lang = "c++" then
    execute_c_cpp code input (if lang = "c" then "c" else "cpp") o.cc fs
  else
    { result := { success := false, output := "",
                  error := some ("Unsupported language: " ++ lang),
                  executionTime := 0 },
      fsAfter := fs, written := [], spawned := [] }

/-- Spec-side reading of "the source text declares a public class with
name N" (claim C6): the whitespace tokenization of the source contains
the consecutive tokens `public`, `class`, `N`.  This definition follows
the specification's words, not the extractor, and exists only to compare
the two. -/
def specDeclaresPublicClass (code N : String) : Prop :=
  ∃ pre post, pre ++ ["public", "class", N] ++ post = pySplitWs code

/-- Process outcome: exited zero with empty streams. -/
def procZero : ProcOutput := { returncode := 0, stdout := "", stderr := "" }

/-- Java oracle for a fully successful request in workspace `wsp`:
compile takes 2 s and exits zero, the run takes 1 s, prints `ok` and
exits zero. -/
def javaOracle0 : JavaOracle :=
  { mkdtemp := .ok "wsp", write := none,
    compileEv := .completed procZero 2,
    runEv := .completed { returncode := 0, stdout := "ok\n", stderr := "" } 1 }

/-- C/C++ oracle for a fully successful request in workspace `wsc`. -/
def ccOracle0 : CCOracle :=
  { mkdtemp := .ok "wsc", write := none,
    compileEv := .completed procZero 2,
    runEv := .completed { returncode := 0, stdout := "ok\n", stderr := "" } 1 }

/-- Python oracle for a successful 1 s run printing `ok`. -/
def pyOracle0 : PyOracle :=
  { runEv := .completed { returncode := 0, stdout := "ok\n", stderr := "" } 1 }

/-- Dispatcher oracle combining the successful per-runner oracles. -/
def oracle0 : ExecOracle := { py := pyOracle0, java := javaOracle0, cc := ccOracle0 }

theorem execute_dispatch_python (code input : String) (O : ExecOracle) (fs : List String) :
    execute "python" code input O fs =
      { result := execute_python code input O.py, fsAfter := fs,
        written := [], spawned := [[pyExe, "-c", code]] } := rfl

theorem execute_dispatch_java (code input : String) (O : ExecOracle) (fs : List String) :
    execute "java" code input O fs = execute_java code input O.java fs := rfl

theorem execute_dispatch_c (code input : String) (O : ExecOracle) (fs : List String) :
    execute "c" code input O fs = execute_c_cpp code input "c" O.cc fs := rfl

theorem execute_dispatch_cpp (code input : String) (O : ExecOracle) (fs : List String) :
    execute "cpp" code input O fs = execute_c_cpp code input "cpp" O.cc fs := rfl

theorem execute_dispatch_cpp_alias (code input : String) (O : ExecOracle) (fs : List String) :
    execute "c++" code input O fs = execute_c_cpp code input "cpp" O.cc fs := rfl

theorem execute_java_fsAfter_ok (code input : String) (o : JavaOracle) (fs : List String)
    (d : String) (h : o.mkdtemp = MkdtempEvent.ok d) :
    (execute_java code input o fs).fsAfter = (d :: fs).erase d := by
  unfold execute_java
  rw [h]
  simp

theorem execute_java_fsAfter_exn (code input : String) (o : JavaOracle) (fs : List String)
    (m : String) (h : o.mkdtemp = MkdtempEvent.exn m) :
    (execute_java code input o fs).fsAfter = fs := by
  unfold execute_java
  rw [h]

theorem execute_c_cpp_fsAfter_ok (code input language : String) (o : CCOracle)
    (fs : List String) (d : String) (h : o.mkdtemp = MkdtempEvent.ok d) :
    (execute_c_cpp code input language o fs).fsAfter = (d :: fs).erase d := by
  unfold execute_c_cpp
  rw [h]
  simp

theorem execute_c_cpp_fsAfter_exn (code input language : String) (o : CCOracle)
    (fs : List String) (m : String) (h : o.mkdtemp = MkdtempEvent.exn m) :
    (execute_c_cpp code input language o fs).fsAfter = fs := by
  unfold execute_c_cpp
  rw [h]

/-- C1: For every Java, C, or C++ request, the per-request temporary
workspace directory created during handling (the fresh directory
`mkdtemp` returned, so one not among the directories existing
beforehand) no longer exists by the time `execute` returns, on every
exit path — normal completion, compile failure, run failure, timeout,
and any unexpected exception raised during a stage (the oracle fields
range over all of these); and when `mkdtemp` itself raised, no
directory was created and the filesystem is unchanged. -/
theorem c1_workspace_removed_on_every_path :
    (∀ code input O fs d, O.java.mkdtemp = MkdtempEvent.ok d → d ∉ fs →
      d ∉ (execute "java" code input O fs).fsAfter) ∧
    (∀ lg code input O fs d, lg = "c" ∨ lg = "cpp" ∨ lg = "c++" →
      O.cc.mkdtemp = MkdtempEvent.ok d → d ∉ fs →
      d ∉ (execute lg code input O fs).fsAfter) ∧
    (∀ code input O fs m, O.java.mkdtemp = MkdtempEvent.exn m →
      (execute "java" code input O fs).fsAfter = fs) ∧
    (∀ code input O fs m, O.cc.mkdtemp = MkdtempEvent.exn m →
      (execute "c" code input O fs).fsAfter = fs) := by
  refine ⟨?_, ?_, ?_, ?_⟩
  · intro code input O fs d h hd
    rw [execute_dispatch_java, execute_java_fsAfter_ok code input O.java fs d h,
      List.erase_cons_head]
    exact hd
  · intro lg code input O fs d hlg h hd
    have hfs : (execute lg code input O fs).fsAfter = (d :: fs).erase d := by
      rcases hlg with h1 | h1 | h1 <;> subst h1
      · rw [execute_dispatch_c, execute_c_cpp_fsAfter_ok code input "c" O.cc fs d h]
      · rw [execute_dispatch_cpp, execute_c_cpp_fsAfter_ok code input "cpp" O.cc fs d h]
      · rw [execute_dispatch_cpp_alias, execute_c_cpp_fsAfter_ok code input "cpp" O.cc fs d h]
    rw [hfs, List.erase_cons_head]
    exact hd
  · intro code input O fs m h
    rw [execute_dispatch_java, execute_java_fsAfter_exn code input O.java fs m h]
  · intro code input O fs m h
    rw [execute_dispatch_c, execute_c_cpp_fsAfter_exn code input "c" O.cc fs m h]

/-- Witness for C1 at a concrete Java request: the fresh workspace `wsp`
does not exist once `execute` returns. -/
theorem c1_witness :
    "wsp" ∉ ([] : List String) ∧
    "wsp" ∉ (execute "java" "public class A { }" "" oracle0 []).fsAfter :=
  ⟨by decide,
    c1_workspace_removed_on_every_path.1 "public class A { }" "" oracle0 [] "wsp"
      rfl (by decide)⟩

/-- C2 amended: every exception raised inside a language runner is
converted into a structured `success = false` result — a generic
exception to `exnResult` carrying `str(e)`, and a `FileNotFoundError`
at the workspace creation, source-file write, compile call, or run call
of the Java and C/C++ runners to the curated toolchain-missing result —
except for the single path of a C or C++ request whose `mkdtemp` raises
`FileNotFoundError`: there the `except FileNotFoundError` handler itself
raises `UnboundLocalError` (it reads the local `compiler` before any
assignment) and that exception propagates to the caller instead of any
result.  In every other case nothing escapes (`raised = none`). -/
theorem c2_fault_handling :
    (∀ code input O fs m, O.py.runEv = ProcEvent.otherExn m →
      (execute "python" code input O fs).result = exnResult m) ∧
    (∀ code input O fs m, O.py.runEv = ProcEvent.fileNotFound m →
      (execute "python" code input O fs).result = exnResult m) ∧
    (∀ code input O fs m, O.java.mkdtemp = MkdtempEvent.exn m →
      (execute "java" code input O fs).result = exnResult m) ∧
    (∀ code input O fs m, O.java.mkdtemp = MkdtempEvent.fnf m →
      (execute "java" code input O fs).result = javaFnfResult) ∧
    (∀ code input O fs d m, O.java.mkdtemp = MkdtempEvent.ok d →
      extractClassName code = Except.error m →
      (execute "java" code input O fs).result = exnResult m) ∧
    (∀ code input O fs d n m, O.java.mkdtemp = MkdtempEvent.ok d →
      extractClassName code = Except.ok n →
      O.java.write = some (WriteExn.exn m) →
      (execute "java" code input O fs).result = exnResult m) ∧
    (∀ code input O fs d n m, O.java.mkdtemp = MkdtempEvent.ok d →
      extractClassName code = Except.ok n →
      O.java.write = some (WriteExn.fnf m) →
      (execute "java" code input O fs).result = javaFnfResult) ∧
    (∀ code input O fs d n m, O.java.mkdtemp = MkdtempEvent.ok d →
      extractClassName code = Except.ok n → O.java.write = none →
      O.java.compileEv = ProcEvent.otherExn m →
      (execute "java" code input O fs).result = exnResult m) ∧
    (∀ code input O fs d n c ce m, O.java.mkdtemp = MkdtempEvent.ok d →
      extractClassName code = Except.ok n → O.java.write = none →
      O.java.compileEv = ProcEvent.completed c ce → c.returncode = 0 →
      O.java.runEv = ProcEvent.otherExn m →
      (execute "java" code input O fs).result = exnResult m) ∧
    (∀ code input O fs m, O.cc.mkdtemp = MkdtempEvent.exn m →
      (execute "c" code input O fs).result = exnResult m) ∧
    (∀ code input O fs m, O.cc.mkdtemp = MkdtempEvent.fnf m →
      (execute "c" code input O fs).raised =
        some (Escaped.unboundLocalError "compiler")) ∧
    (∀ code input O fs d m, O.cc.mkdtemp = MkdtempEvent.ok d →
      O.cc.write = some (WriteExn.exn m) →
      (execute "cpp" code input O fs).result = exnResult m) ∧
    (∀ code input O fs d m, O.cc.mkdtemp = MkdtempEvent.ok d →
      O.cc.write = some (WriteExn.fnf m) →
      (execute "c" code input O fs).result = ccFnfResult "gcc") ∧
    (∀ code input O fs d m, O.cc.mkdtemp = MkdtempEvent.ok d → O.cc.write = none →
      O.cc.compileEv = ProcEvent.otherExn m →
      (execute "c" code input O fs).result = exnResult m) ∧
    (∀ code input O fs d c ce m, O.cc.mkdtemp = MkdtempEvent.ok d → O.cc.write = none →
      O.cc.compileEv = ProcEvent.completed c ce → c.returncode = 0 →
      O.cc.runEv = ProcEvent.otherExn m →
      (execute "c++" code input O fs).result = exnResult m) ∧
    (∀ code input O fs, (execute "python" code input O fs).raised = none) ∧
    (∀ code input O fs, (execute "java" code input O fs).raised = none) ∧
    (∀ code input O fs, (∀ m, O.cc.mkdtemp ≠ MkdtempEvent.fnf m) →
      (execute "c" code input O fs).raised = none) := by
  refine ⟨?_, ?_, ?_, ?_, ?_, ?_, ?_, ?_, ?_, ?_, ?_, ?_, ?_, ?_, ?_, ?_, ?_, ?_⟩
  · intro code input O fs m h
    rw [execute_dispatch_python]
    simp [execute_python, h]
  · intro code input O fs m h
    rw [execute_dispatch_python]
    simp [execute_python, h]
  · intro code input O fs m h
    rw [execute_dispatch_java]
    simp [execute_java, h]
  · intro code input O fs m h
    rw [execute_dispatch_java]
    simp [execute_java, h]
  · intro code input O fs d m h1 h2
    rw [execute_dispatch_java]
    simp [execute_java, h1, javaBody, h2]
  · intro code input O fs d n m h1 h2 h3
    rw [execute_dispatch_java]
    simp [execute_java, h1, javaBody, h2, h3]
  · intro code input O fs d n m h1 h2 h3
    rw [execute_dispatch_java]
    simp [execute_java, h1, javaBody, h2, h3]
  · intro code input O fs d n m h1 h2 h3 h4
    rw [execute_dispatch_java]
    simp [execute_java, h1, javaBody, h2, h3, h4]
  · intro code input O fs d n c ce m h1 h2 h3 h4 h5 h6
    rw [execute_dispatch_java]
    simp [execute_java, h1, javaBody, h2, h3, h4, h5, h6]
  · intro code input O fs m h
    rw [execute_dispatch_c]
    simp [execute_c_cpp, h]
  · intro code input O fs m h
    rw [execute_dispatch_c]
    simp [execute_c_cpp, h]
  · intro code input O fs d m h1 h2
    rw [execute_dispatch_cpp]
    simp [execute_c_cpp, h1, ccBody, h2]
  · intro code input O fs d m h1 h2
    rw [execute_dispatch_c]
    simp [execute_c_cpp, h1, ccBody, h2]
  · intro code input O fs d m h1 h2 h3
    rw [execute_dispatch_c]
    simp [execute_c_cpp, h1, ccBody, h2, h3]
  · intro code input O fs d c ce m h1 h2 h3 h4 h5
    rw [execute_dispatch_cpp_alias]
    simp [execute_c_cpp, h1, ccBody, h2, h3, h4, h5]
  · intro code input O fs
    rw [execute_dispatch_python]
  · intro code input O fs
    rw [execute_dispatch_java]
    cases h : O.java.mkdtemp <;> simp [execute_java, h]
  · intro code input O fs hne
    rw [execute_dispatch_c]
    cases h : O.cc.mkdtemp with
    | ok d => simp [execute_c_cpp, h]
    | fnf m => exact absurd h (hne m)
    | exn m => simp [execute_c_cpp, h]

/-- Oracle for a C request on a host whose temporary-directory machinery
is broken: `tempfile.mkdtemp()` raises `FileNotFoundError`. -/
def oracleNoTmp : ExecOracle :=
  { oracle0 with cc := { ccOracle0 with
      mkdtemp := .fnf "[Errno 2] No such file or directory" } }

/-- Counterexample to C2 as stated: a C request whose `mkdtemp` raises
`FileNotFoundError` — an environment failure unrelated to the submitted
code — does not come back as a `success = false` result: the
`except FileNotFoundError` handler reads the unassigned local `compiler`
and the resulting `UnboundLocalError` propagates out of `execute` to the
caller. -/
theorem c2_counterexample :
    (execute "c" "int main(){}" "" oracleNoTmp []).raised =
      some (Escaped.unboundLocalError "compiler") ∧
    (execute "c" "int main(){}" "" oracleNoTmp []).raised ≠ none :=
  ⟨by decide, by decide⟩

/-- Java oracle whose run stage raises an unexpected environment
exception after a clean compile. -/
def javaOracleEnvExn : JavaOracle := { javaOracle0 with runEv := .otherExn "disk full" }

/-- Witness for the amended C2 at a concrete request: an environment
exception inside the Java runner's run stage comes back as a structured
failure result. -/
theorem c2_witness :
    (execute "java" "public class A { }" "" { oracle0 with java := javaOracleEnvExn } []).result =
      exnResult "disk full" :=
  c2_fault_handling.2.2.2.2.2.2.2.2.1 "public class A { }" ""
    { oracle0 with java := javaOracleEnvExn } [] "wsp" "A" procZero 2 "disk full"
    rfl (by rfl) rfl rfl rfl rfl

/-- C3: whenever a stage (compile or run, in any runner) fails to finish
within the configured deadline, the result is exactly `timeoutResult`:
`success = false`, `output = ""`, an error message that names the
configured limit (the text of `TIMEOUT` occurs in it), and
`executionTime` equal to the limit itself rather than a partial measured
duration. -/
theorem c3_timeout_reports_limit :
    timeoutResult =
      { success := false, output := "", error := some timeoutMsg,
        executionTime := (TIMEOUT : ℚ) } ∧
    containsSub timeoutMsg (toString TIMEOUT) = true ∧
    (∀ code input O fs, O.py.runEv = ProcEvent.timeoutExpired →
      (execute "python" code input O fs).result = timeoutResult) ∧
    (∀ code input O fs d n, O.java.mkdtemp = MkdtempEvent.ok d →
      extractClassName code = Except.ok n → O.java.write = none →
      O.java.compileEv = ProcEvent.timeoutExpired →
      (execute "java" code input O fs).result = timeoutResult) ∧
    (∀ code input O fs d n c ce, O.java.mkdtemp = MkdtempEvent.ok d →
      extractClassName code = Except.ok n → O.java.write = none →
      O.java.compileEv = ProcEvent.completed c ce → c.returncode = 0 →
      O.java.runEv = ProcEvent.timeoutExpired →
      (execute "java" code input O fs).result = timeoutResult) ∧
    (∀ code input O fs d, O.cc.mkdtemp = MkdtempEvent.ok d → O.cc.write = none →
      O.cc.compileEv = ProcEvent.timeoutExpired →
      (execute "c" code input O fs).result = timeoutResult) ∧
    (∀ code input O fs d c ce, O.cc.mkdtemp = MkdtempEvent.ok d → O.cc.write = none →
      O.cc.compileEv = ProcEvent.completed c ce → c.returncode = 0 →
      O.cc.runEv = ProcEvent.timeoutExpired →
      (execute "cpp" code input O fs).result = timeoutResult) := by
  refine ⟨rfl, by decide, ?_, ?_, ?_, ?_, ?_⟩
  · intro code input O fs h
    rw [execute_dispatch_python]
    simp [execute_python, h]
  · intro code input O fs d n h1 h2 h3 h4
    rw [execute_dispatch_java]
    simp [execute_java, h1, javaBody, h2, h3, h4]
  · intro code input O fs d n c ce h1 h2 h3 h4 h5 h6
    rw [execute_dispatch_java]
    simp [execute_java, h1, javaBody, h2, h3, h4, h5, h6]
  · intro code input O fs d h1 h2 h3
    rw [execute_dispatch_c]
    simp [execute_c_cpp, h1, ccBody, h2, h3]
  · intro code input O fs d c ce h1 h2 h3 h4 h5
    rw [execute_dispatch_cpp]
    simp [execute_c_cpp, h1, ccBody, h2, h3, h4, h5]

/-- Dispatcher oracle in which the Python run stage times out. -/
def oracleTimeout : ExecOracle := { oracle0 with py := { runEv := .timeoutExpired } }

/-- Witness for C3: an infinitely looping Python submission yields the
timeout result, whose `error` contains `10` and whose `executionTime` is
exactly `10`. -/
theorem c3_witness :
    (execute "python" "while True: pass" "" oracleTimeout []).result = timeoutResult ∧
    timeoutResult.executionTime = (10 : ℚ) ∧
    timeoutResult.error = some "Execution timeout (10s limit exceeded)" :=
  ⟨c3_timeout_reports_limit.2.2.1 "while True: pass" "" oracleTimeout [] rfl,
    by decide, by decide⟩

/-- C4: for every C, C++, or Java request whose compiler invocation exits
nonzero, the result has `success = false`, `output = ""`, and an error
holding the compiler's diagnostics behind the `Compilation Error:`
marker that identifies them as compile-time errors; and the run stage is
never started — the only `subprocess.run` invocation of the whole request
is the compiler's. -/
theorem c4_compile_failure_stops_pipeline :
    (∀ s, compileErrorResult s =
      { success := false, output := "",
        error := some ("Compilation Error:\n" ++ s), executionTime := 0 }) ∧
    (∀ code input O fs d n c ce, O.java.mkdtemp = MkdtempEvent.ok d →
      extractClassName code = Except.ok n → O.java.write = none →
      O.java.compileEv = ProcEvent.completed c ce → c.returncode ≠ 0 →
      (execute "java" code input O fs).result = compileErrorResult c.stderr ∧
      (execute "java" code input O fs).spawned = [["javac", javaFilePath d n]]) ∧
    (∀ code input O fs d c ce, O.cc.mkdtemp = MkdtempEvent.ok d → O.cc.write = none →
      O.cc.compileEv = ProcEvent.completed c ce → c.returncode ≠ 0 →
      (execute "c" code input O fs).result = compileErrorResult c.stderr ∧
      (execute "c" code input O fs).spawned =
        [["gcc", ccSourceFile d ".c", "-o", ccOutputFile d]]) ∧
    (∀ code input O fs d c ce, O.cc.mkdtemp = MkdtempEvent.ok d → O.cc.write = none →
      O.cc.compileEv = ProcEvent.completed c ce → c.returncode ≠ 0 →
      (execute "cpp" code input O fs).result = compileErrorResult c.stderr ∧
      (execute "cpp" code input O fs).spawned =
        [["g++", ccSourceFile d ".cpp", "-o", ccOutputFile d]]) := by
  refine ⟨fun s => rfl, ?_, ?_, ?_⟩
  · intro code input O fs d n c ce h1 h2 h3 h4 h5
    rw [execute_dispatch_java]
    constructor <;> simp [execute_java, h1, javaBody, h2, h3, h4, h5]
  · intro code input O fs d c ce h1 h2 h3 h4
    rw [execute_dispatch_c]
    constructor <;> simp [execute_c_cpp, h1, ccBody, h2, h3, h4]
  · intro code input O fs d c ce h1 h2 h3 h4
    rw [execute_dispatch_cpp]
    constructor <;> simp [execute_c_cpp, h1, ccBody, h2, h3, h4]

/-- Oracle for a C submission with a missing semicolon: the compiler
exits 1 with a diagnostic after 1 s; the run event is irrelevant. -/
def oracleCompileFail : ExecOracle :=
  { oracle0 with cc := { ccOracle0 with
      compileEv := .completed
        { returncode := 1, stdout := "",
          stderr := "main.c:1:13: error: expected ;" } 1 } }

/-- Witness for C4: the missing-semicolon C submission yields the
compiler's diagnostics as a compile-time error and no run invocation. -/
theorem c4_witness :
    (execute "c" "int main(){}" "" oracleCompileFail []).result =
      compileErrorResult "main.c:1:13: error: expected ;" ∧
    (execute "c" "int main(){}" "" oracleCompileFail []).spawned =
      [["gcc", "wsc/main.c", "-o", "wsc/program"]] :=
  c4_compile_failure_stops_pipeline.2.2.1 "int main(){}" "" oracleCompileFail []
    "wsc" { returncode := 1, stdout := "", stderr := "main.c:1:13: error: expected ;" } 1
    rfl rfl rfl (by decide)

/-- Counterexample to C5 as stated: the dispatcher lowercases the
identifier before building the message, so submitting `RUBY` yields
`Unsupported language: ruby` — the error does not name the submitted
value `RUBY` itself. -/
theorem c5_counterexample :
    (execute "RUBY" "x" "" oracle0 []).result.success = false ∧
    (execute "RUBY" "x" "" oracle0 []).result.error =
      some "Unsupported language: ruby" ∧
    (execute "RUBY" "x" "" oracle0 []).result.error ≠
      some "Unsupported language: RUBY" :=
  ⟨by decide, by decide, by decide⟩

/-- C5 amended: for every language identifier whose lowercase form is
outside `python`, `java`, `c`, `cpp`, `c++`, `execute` returns exactly
`success = false`, `output = ""`,
`error = "Unsupported language: " ++` the lowercased submitted value,
`executionTime = 0`, and spawns no child process, writes no file, and
leaves the filesystem unchanged. -/
theorem c5_unsupported_language (language code input : String) (O : ExecOracle)
    (fs : List String)
    (h : pyLower language ∉ (["python", "java", "c", "cpp", "c++"] : List String)) :
    (execute language code input O fs).result =
      { success := false, output := "",
        error := some ("Unsupported language: " ++ pyLower language),
        executionTime := 0 } ∧
    (execute language code input O fs).spawned = [] ∧
    (execute language code input O fs).written = [] ∧
    (execute language code input O fs).fsAfter = fs := by
  simp only [List.mem_cons, List.not_mem_nil, or_false, not_or] at h
  obtain ⟨h1, h2, h3, h4, h5⟩ := h
  unfold execute
  simp [h1, h2, h3, h4, h5]

/-- Witness for the amended C5: `Ruby` is rejected with the lowercased
name in the message and nothing is spawned. -/
theorem c5_witness :
    pyLower "Ruby" ∉ (["python", "java", "c", "cpp", "c++"] : List String) ∧
    (execute "Ruby" "x" "" oracle0 []).result =
      { success := false, output := "",
        error := some ("Unsupported language: " ++ pyLower "Ruby"),
        executionTime := 0 } ∧
    (execute "Ruby" "x" "" oracle0 []).spawned = [] :=
  ⟨by decide, (c5_unsupported_language "Ruby" "x" "" oracle0 [] (by decide)).1,
    (c5_unsupported_language "Ruby" "x" "" oracle0 [] (by decide)).2.1⟩

theorem javaBody_written (code : String) (o : JavaOracle) (dir n : String)
    (h2 : extractClassName code = Except.ok n) (h3 : o.write = none) :
    (javaBody code o dir).written = [(javaFilePath dir n, code)] := by
  unfold javaBody
  rw [h2, h3]
  cases hc : o.compileEv with
  | completed c ce =>
    by_cases hrc : c.returncode ≠ 0
    · simp [hrc]
    · cases hr : o.runEv <;> simp [hrc]
  | timeoutExpired => rfl
  | fileNotFound m => rfl
  | otherExn m => rfl

theorem javaBody_run_spawned (code : String) (o : JavaOracle) (dir n : String)
    (h2 : extractClassName code = Except.ok n) (h3 : o.write = none)
    (c : ProcOutput) (ce : ℚ) (hc : o.compileEv = ProcEvent.completed c ce)
    (hrc : c.returncode = 0) :
    ["java", "-cp", dir, n] ∈ (javaBody code o dir).spawned := by
  unfold javaBody
  rw [h2, h3, hc]
  cases hr : o.runEv <;> simp [hrc]

theorem extractClassName_default (code : String)
    (h : containsSub code "public class " = false) :
    extractClassName code = Except.ok "Main" := by
  simp [extractClassName, h]

/-- Counterexample to C6 as stated: the source `public  class Foo { }`
(two spaces between the keywords, legal in the language) declares a
public class named `Foo`, yet the heuristic only matches the exact
single-space substring `public class `, so the source is written to
`Main.java` — not `Foo.java` — and the run stage launches `Main`. -/
theorem c6_counterexample :
    specDeclaresPublicClass "public  class Foo { }" "Foo" ∧
    (execute "java" "public  class Foo { }" "" oracle0 []).written =
      [("wsp/Main.java", "public  class Foo { }")] ∧
    (execute "java" "public  class Foo { }" "" oracle0 []).spawned =
      [["javac", "wsp/Main.java"], ["java", "-cp", "wsp", "Main"]] ∧
    ("wsp/Main.java" : String) ≠ "wsp/Foo.java" :=
  ⟨⟨[], ["\x7b", "\x7d"], by decide⟩, by decide, by decide, by decide⟩

/-- C6 amended: the file and launch name come from the syntactic
heuristic `extractClassName` — when the source contains the exact
substring `public class ` the name is the first whitespace-delimited
token after its first occurrence, truncated at the first `{`, and
otherwise (including sources declaring a public class in another
spelling) the conventional default `Main`.  Whenever the write step is
reached, the source is written to `<name>.java` in the workspace, and
whenever the run stage is reached it launches `java -cp <dir> <name>`
with that same name. -/
theorem c6_class_name_heuristic (code input : String) (O : ExecOracle)
    (fs : List String) (d n : String) (h1 : O.java.mkdtemp = MkdtempEvent.ok d)
    (h2 : extractClassName code = Except.ok n) (h3 : O.java.write = none) :
    (execute "java" code input O fs).written = [(javaFilePath d n, code)] ∧
    (∀ c ce, O.java.compileEv = ProcEvent.completed c ce → c.returncode = 0 →
      ["java", "-cp", d, n] ∈ (execute "java" code input O fs).spawned) ∧
    (containsSub code "public class " = false → n = "Main") := by
  rw [execute_dispatch_java]
  refine ⟨?_, ?_, ?_⟩
  · unfold execute_java
    rw [h1]
    simpa using javaBody_written code O.java d n h2 h3
  · intro c ce hc hrc
    unfold execute_java
    rw [h1]
    simpa using javaBody_run_spawned code O.java d n h2 h3 c ce hc hrc
  · intro hdef
    have hm := extractClassName_default code hdef
    rw [h2] at hm
    exact (Except.ok.injEq _ _).mp hm.symm |>.symm

/-- Witness for the amended C6: `public class Solver { }` is written to
`Solver.java` and runs via the discovered name `Solver`. -/
theorem c6_witness :
    extractClassName "public class Solver { }" = Except.ok "Solver" ∧
    (execute "java" "public class Solver { }" "" oracle0 []).written =
      [(javaFilePath "wsp" "Solver", "public class Solver { }")] ∧
    ["java", "-cp", "wsp", "Solver"] ∈
      (execute "java" "public class Solver { }" "" oracle0 []).spawned :=
  ⟨by rfl,
    (c6_class_name_heuristic "public class Solver { }" "" oracle0 [] "wsp" "Solver"
      rfl (by rfl) rfl).1,
    (c6_class_name_heuristic "public class Solver { }" "" oracle0 [] "wsp" "Solver"
      rfl (by rfl) rfl).2.1 procZero 2 rfl (by decide)⟩

/-- C7 amended: whenever a required executable cannot be located
(`FileNotFoundError` at the workspace creation, source write, compile
call, or run call of the Java or C/C++ runner — with the exception of
the C/C++ `mkdtemp` path, settled under C2), the result is the fixed
curated message independent of the low-level exception text `m` (so
never a raw lookup-failure message), with `success = false`; the message
names the language's toolchain with an install suggestion and does not
carry the `Compilation Error:` marker of a nonzero compiler exit — but
it always blames the compiler executable (`javac`, `GCC`, `G++`), even
when the executable actually missing is the Java runtime launcher
`java` at the run stage. -/
theorem c7_toolchain_missing_blames_compiler :
    (∀ code input O fs d n m, O.java.mkdtemp = MkdtempEvent.ok d →
      extractClassName code = Except.ok n → O.java.write = none →
      O.java.compileEv = ProcEvent.fileNotFound m →
      (execute "java" code input O fs).result = javaFnfResult) ∧
    (∀ code input O fs d n c ce m, O.java.mkdtemp = MkdtempEvent.ok d →
      extractClassName code = Except.ok n → O.java.write = none →
      O.java.compileEv = ProcEvent.completed c ce → c.returncode = 0 →
      O.java.runEv = ProcEvent.fileNotFound m →
      (execute "java" code input O fs).result = javaFnfResult) ∧
    (∀ code input O fs m, O.java.mkdtemp = MkdtempEvent.fnf m →
      (execute "java" code input O fs).result = javaFnfResult) ∧
    (∀ code input O fs d n m, O.java.mkdtemp = MkdtempEvent.ok d →
      extractClassName code = Except.ok n →
      O.java.write = some (WriteExn.fnf m) →
      (execute "java" code input O fs).result = javaFnfResult) ∧
    (∀ code input O fs d m, O.cc.mkdtemp = MkdtempEvent.ok d → O.cc.write = none →
      O.cc.compileEv = ProcEvent.fileNotFound m →
      (execute "c" code input O fs).result = ccFnfResult "gcc") ∧
    (∀ code input O fs d m, O.cc.mkdtemp = MkdtempEvent.ok d → O.cc.write = none →
      O.cc.compileEv = ProcEvent.fileNotFound m →
      (execute "cpp" code input O fs).result = ccFnfResult "g++") ∧
    (∀ code input O fs d c ce m, O.cc.mkdtemp = MkdtempEvent.ok d → O.cc.write = none →
      O.cc.compileEv = ProcEvent.completed c ce → c.returncode = 0 →
      O.cc.runEv = ProcEvent.fileNotFound m →
      (execute "c" code input O fs).result = ccFnfResult "gcc") ∧
    (∀ code input O fs d m, O.cc.mkdtemp = MkdtempEvent.ok d →
      O.cc.write = some (WriteExn.fnf m) →
      (execute "cpp" code input O fs).result = ccFnfResult "g++") ∧
    javaFnfResult.success = false ∧
    javaFnfResult.error = some javaFnfMsg ∧
    containsSub javaFnfMsg "javac" = true ∧
    containsSub javaFnfMsg "install" = true ∧
    containsSub javaFnfMsg "Compilation Error:" = false ∧
    containsSub (ccFnfMsg "gcc") "GCC" = true ∧
    containsSub (ccFnfMsg "g++") "G++" = true ∧
    containsSub (ccFnfMsg "gcc") "install" = true ∧
    containsSub (ccFnfMsg "gcc") "Compilation Error:" = false := by
  refine ⟨?_, ?_, ?_, ?_, ?_, ?_, ?_, ?_, rfl, rfl, by decide, by decide, by decide,
    by decide, by decide, by decide, by decide⟩
  · intro code input O fs d n m h1 h2 h3 h4
    rw [execute_dispatch_java]
    simp [execute_java, h1, javaBody, h2, h3, h4]
  · intro code input O fs d n c ce m h1 h2 h3 h4 h5 h6
    rw [execute_dispatch_java]
    simp [execute_java, h1, javaBody, h2, h3, h4, h5, h6]
  · intro code input O fs m h
    rw [execute_dispatch_java]
    simp [execute_java, h]
  · intro code input O fs d n m h1 h2 h3
    rw [execute_dispatch_java]
    simp [execute_java, h1, javaBody, h2, h3]
  · intro code input O fs d m h1 h2 h3
    rw [execute_dispatch_c]
    simp [execute_c_cpp, h1, ccBody, h2, h3]
  · intro code input O fs d m h1 h2 h3
    rw [execute_dispatch_cpp]
    simp [execute_c_cpp, h1, ccBody, h2, h3]
  · intro code input O fs d c ce m h1 h2 h3 h4 h5
    rw [execute_dispatch_c]
    simp [execute_c_cpp, h1, ccBody, h2, h3, h4, h5]
  · intro code input O fs d m h1 h2
    rw [execute_dispatch_cpp]
    simp [execute_c_cpp, h1, ccBody, h2]

/-- Oracle for a host that has the JDK compiler but no `java` launcher:
the `javac` call completes with status zero, then the run call's lookup
of `java` raises `FileNotFoundError`. -/
def oracleNoJavaRuntime : ExecOracle :=
  { oracle0 with java := { javaOracle0 with
      runEv := .fileNotFound "[Errno 2] No such file or directory: 'java'" } }

/-- Counterexample to C7 as stated: here the executable that cannot be
located is the runtime launcher `java` — the compiler `javac` was
located and its invocation ran to completion with status zero — yet the
error message asserts that `javac` was not found.  The message names and
blames a tool that was found, not the missing one, so the claim's
"names the missing tool" fails on this request. -/
theorem c7_counterexample :
    (execute "java" "public class A { }" "" oracleNoJavaRuntime []).spawned =
      [["javac", "wsp/A.java"], ["java", "-cp", "wsp", "A"]] ∧
    oracleNoJavaRuntime.java.compileEv = ProcEvent.completed procZero 2 ∧
    oracleNoJavaRuntime.java.runEv =
      ProcEvent.fileNotFound "[Errno 2] No such file or directory: 'java'" ∧
    (execute "java" "public class A { }" "" oracleNoJavaRuntime []).result.error =
      some "Java compiler (javac) not found. Please install JDK." :=
  ⟨by decide, rfl, rfl, by decide⟩

/-- Oracle for a host without a JDK: the `javac` invocation raises
`FileNotFoundError` with the raw OS message. -/
def oracleNoJdk : ExecOracle :=
  { oracle0 with java := { javaOracle0 with
      compileEv := .fileNotFound "[Errno 2] No such file or directory: 'javac'" } }

/-- Witness for the amended C7: with `javac` missing, the result is the
curated install-suggesting message, not the raw lookup failure. -/
theorem c7_witness :
    (execute "java" "public class A { }" "" oracleNoJdk []).result = javaFnfResult ∧
    javaFnfResult.error ≠
      some "[Errno 2] No such file or directory: 'javac'" :=
  ⟨c7_toolchain_missing_blames_compiler.1 "public class A { }" "" oracleNoJdk []
      "wsp" "A" "[Errno 2] No such file or directory: 'javac'" rfl (by rfl) rfl rfl,
    by decide⟩

/-- Java oracle whose compile stage fails after a measured 5 s. -/
def javaOracleSlowCompileFail : JavaOracle :=
  { javaOracle0 with
      compileEv := .completed { returncode := 1, stdout := "", stderr := "bad" } 5 }

/-- Counterexample to C8 as stated: the compile stage is attempted, runs
for a measured 5 s and fails, yet the reported `executionTime` is the
constant `0` — not the elapsed time of the compile stage (which rounds to
5). -/
theorem c8_counterexample :
    (execute "java" "class A {}" ""
      { oracle0 with java := javaOracleSlowCompileFail } []).result.executionTime = 0 ∧
    round3 5 = 5 ∧ (0 : ℚ) ≠ 5 :=
  ⟨by decide, by decide, by decide⟩

/-- C8 amended: `executionTime` is the rounded measured wall time only on
requests that reach the run stage's normal return — and there one clock
spans compile and run together (`round3 (ce + re)`), the stages are not
independently reported — while every compile failure reports the constant
`0` and a timeout reports the configured limit. -/
theorem c8_execution_time_by_outcome :
    (∀ code input O fs r e, O.py.runEv = ProcEvent.completed r e →
      (execute "python" code input O fs).result.executionTime = round3 e) ∧
    (∀ code input O fs d n c ce r re, O.java.mkdtemp = MkdtempEvent.ok d →
      extractClassName code = Except.ok n → O.java.write = none →
      O.java.compileEv = ProcEvent.completed c ce → c.returncode = 0 →
      O.java.runEv = ProcEvent.completed r re →
      (execute "java" code input O fs).result.executionTime = round3 (ce + re)) ∧
    (∀ code input O fs d c ce r re, O.cc.mkdtemp = MkdtempEvent.ok d →
      O.cc.write = none → O.cc.compileEv = ProcEvent.completed c ce →
      c.returncode = 0 → O.cc.runEv = ProcEvent.completed r re →
      (execute "c" code input O fs).result.executionTime = round3 (ce + re)) ∧
    (∀ code input O fs d n c ce, O.java.mkdtemp = MkdtempEvent.ok d →
      extractClassName code = Except.ok n → O.java.write = none →
      O.java.compileEv = ProcEvent.completed c ce → c.returncode ≠ 0 →
      (execute "java" code input O fs).result.executionTime = 0) ∧
    (∀ code input O fs, O.py.runEv = ProcEvent.timeoutExpired →
      (execute "python" code input O fs).result.executionTime = (TIMEOUT : ℚ)) := by
  refine ⟨?_, ?_, ?_, ?_, ?_⟩
  · intro code input O fs r e h
    rw [execute_dispatch_python]
    simp [execute_python, h]
  · intro code input O fs d n c ce r re h1 h2 h3 h4 h5 h6
    rw [execute_dispatch_java]
    simp [execute_java, h1, javaBody, h2, h3, h4, h5, h6]
  · intro code input O fs d c ce r re h1 h2 h3 h4 h5
    rw [execute_dispatch_c]
    simp [execute_c_cpp, h1, ccBody, h2, h3, h4, h5]
  · intro code input O fs d n c ce h1 h2 h3 h4 h5
    rw [execute_dispatch_java]
    simp [execute_java, h1, javaBody, h2, h3, h4, h5, compileErrorResult]
  · intro code input O fs h
    rw [execute_dispatch_python]
    simp [execute_python, h, timeoutResult]

/-- Witness for the amended C8: the successful Java request of `oracle0`
(2 s compile, 1 s run) reports 3 s. -/
theorem c8_witness :
    (execute "java" "public class A { }" "" oracle0 []).result.executionTime =
      round3 (2 + 1) ∧
    round3 (2 + 1) = 3 :=
  ⟨c8_execution_time_by_outcome.2.1 "public class A { }" "" oracle0 []
      "wsp" "A" procZero 2 { returncode := 0, stdout := "ok\n", stderr := "" } 1
      rfl (by rfl) rfl rfl (by decide) rfl,
    by decide⟩

/-- Oracle for a Python run that exits nonzero while writing nothing to
its standard error stream. -/
def oracleSilentFail : ExecOracle :=
  { oracle0 with py :=
      { runEv := .completed { returncode := 1, stdout := "", stderr := "" } 1 } }

/-- Counterexample to C9 as stated: a run-stage process exiting nonzero
with empty stderr yields `success = false` together with `error = none` —
a failure outcome with no explanatory error text. -/
theorem c9_counterexample :
    (execute "python" "import sys; sys.exit(1)" "" oracleSilentFail []).result.success
      = false ∧
    (execute "python" "import sys; sys.exit(1)" "" oracleSilentFail []).result.error
      = none :=
  ⟨by decide, by decide⟩

/-- C9 amended: every failure outcome carries `success = false` with a
non-null `error` — compiler failures carry the prefixed diagnostics,
timeouts the limit message, internal faults the exception message,
unsupported languages the naming message, and a nonzero-exit run its
stderr — except the one case of a run-stage process that exits nonzero
with empty stderr, where `error` is `none`. -/
theorem c9_failures_carry_error_text :
    (∀ code input O fs r e, O.py.runEv = ProcEvent.completed r e →
      r.returncode ≠ 0 → r.stderr ≠ "" →
      (execute "python" code input O fs).result.success = false ∧
      (execute "python" code input O fs).result.error = some r.stderr) ∧
    (∀ code input O fs d n c ce r re, O.java.mkdtemp = MkdtempEvent.ok d →
      extractClassName code = Except.ok n → O.java.write = none →
      O.java.compileEv = ProcEvent.completed c ce → c.returncode = 0 →
      O.java.runEv = ProcEvent.completed r re → r.returncode ≠ 0 → r.stderr ≠ "" →
      (execute "java" code input O fs).result.success = false ∧
      (execute "java" code input O fs).result.error = some r.stderr) ∧
    (∀ code input O fs r e, O.py.runEv = ProcEvent.completed r e →
      r.returncode ≠ 0 → r.stderr = "" →
      (execute "python" code input O fs).result.success = false ∧
      (execute "python" code input O fs).result.error = none) ∧
    (∀ code input O fs d n c ce, O.java.mkdtemp = MkdtempEvent.ok d →
      extractClassName code = Except.ok n → O.java.write = none →
      O.java.compileEv = ProcEvent.completed c ce → c.returncode ≠ 0 →
      (execute "java" code input O fs).result.error =
        some ("Compilation Error:\n" ++ c.stderr)) ∧
    (∀ code input O fs, O.py.runEv = ProcEvent.timeoutExpired →
      (execute "python" code input O fs).result.error = some timeoutMsg) ∧
    (∀ code input O fs m, O.py.runEv = ProcEvent.otherExn m →
      (execute "python" code input O fs).result.error = some m) ∧
    (∀ language code input O fs,
      pyLower language ∉ (["python", "java", "c", "cpp", "c++"] : List String) →
      (execute language code input O fs).result.error =
        some ("Unsupported language: " ++ pyLower language)) := by
  refine ⟨?_, ?_, ?_, ?_, ?_, ?_, ?_⟩
  · intro code input O fs r e h hrc hse
    rw [execute_dispatch_python]
    constructor <;> simp [execute_python, h, hrc, hse]
  · intro code input O fs d n c ce r re h1 h2 h3 h4 h5 h6 hrc hse
    rw [execute_dispatch_java]
    constructor <;> simp [execute_java, h1, javaBody, h2, h3, h4, h5, h6, hrc, hse]
  · intro code input O fs r e h hrc hse
    rw [execute_dispatch_python]
    constructor <;> simp [execute_python, h, hrc, hse]
  · intro code input O fs d n c ce h1 h2 h3 h4 h5
    rw [execute_dispatch_java]
    simp [execute_java, h1, javaBody, h2, h3, h4, h5, compileErrorResult]
  · intro code input O fs h
    rw [execute_dispatch_python]
    simp [execute_python, h, timeoutResult, timeoutMsg]
  · intro code input O fs m h
    rw [execute_dispatch_python]
    simp [execute_python, h, exnResult]
  · intro language code input O fs h
    simp only [List.mem_cons, List.not_mem_nil, or_false, not_or] at h
    obtain ⟨h1, h2, h3, h4, h5⟩ := h
    unfold execute
    simp [h1, h2, h3, h4, h5]

/-- Witness for the amended C9: a Python run that exits 1 with a
traceback on stderr surfaces that stderr as the error. -/
theorem c9_witness :
    (execute "python" "1/0" ""
      { oracle0 with py :=
          { runEv := .completed
              { returncode := 1, stdout := "", stderr := "ZeroDivisionError" } 1 } }
      []).result.success = false ∧
    (execute "python" "1/0" ""
      { oracle0 with py :=
          { runEv := .completed
              { returncode := 1, stdout := "", stderr := "ZeroDivisionError" } 1 } }
      []).result.error = some "ZeroDivisionError" :=
  c9_failures_carry_error_text.1 "1/0" ""
    { oracle0 with py :=
        { runEv := .completed
            { returncode := 1, stdout := "", stderr := "ZeroDivisionError" } 1 } }
    [] { returncode := 1, stdout := "", stderr := "ZeroDivisionError" } 1
    rfl (by decide) (by decide)

/-- C10 (implicit): for every run-stage process that completes, `success`
is `true` exactly when the exit status is zero — even when the process
wrote to its standard error stream — and `error` is `none` exactly when
the captured stderr is empty, carrying the captured stderr text
otherwise. -/
theorem c10_success_solely_by_exit_status :
    (∀ code input O fs r e, O.py.runEv = ProcEvent.completed r e →
      ((execute "python" code input O fs).result.success = true ↔ r.returncode = 0) ∧
      ((execute "python" code input O fs).result.error = none ↔ r.stderr = "") ∧
      (r.stderr ≠ "" →
        (execute "python" code input O fs).result.error = some r.stderr)) ∧
    (∀ code input O fs d n c ce r re, O.java.mkdtemp = MkdtempEvent.ok d →
      extractClassName code = Except.ok n → O.java.write = none →
      O.java.compileEv = ProcEvent.completed c ce → c.returncode = 0 →
      O.java.runEv = ProcEvent.completed r re →
      ((execute "java" code input O fs).result.success = true ↔ r.returncode = 0) ∧
      ((execute "java" code input O fs).result.error = none ↔ r.stderr = "") ∧
      (r.stderr ≠ "" →
        (execute "java" code input O fs).result.error = some r.stderr)) ∧
    (∀ code input O fs d c ce r re, O.cc.mkdtemp = MkdtempEvent.ok d →
      O.cc.write = none → O.cc.compileEv = ProcEvent.completed c ce →
      c.returncode = 0 → O.cc.runEv = ProcEvent.completed r re →
      ((execute "c" code input O fs).result.success = true ↔ r.returncode = 0) ∧
      ((execute "c" code input O fs).result.error = none ↔ r.stderr = "") ∧
      (r.stderr ≠ "" →
        (execute "c" code input O fs).result.error = some r.stderr)) := by
  refine ⟨?_, ?_, ?_⟩
  · intro code input O fs r e h
    rw [execute_dispatch_python]
    refine ⟨by simp [execute_python, h], ?_, ?_⟩
    · by_cases hse : r.stderr = "" <;> simp [execute_python, h, hse]
    · intro hse
      simp [execute_python, h, hse]
  · intro code input O fs d n c ce r re h1 h2 h3 h4 h5 h6
    rw [execute_dispatch_java]
    refine ⟨by simp [execute_java, h1, javaBody, h2, h3, h4, h5, h6], ?_, ?_⟩
    · by_cases hse : r.stderr = "" <;>
        simp [execute_java, h1, javaBody, h2, h3, h4, h5, h6, hse]
    · intro hse
      simp [execute_java, h1, javaBody, h2, h3, h4, h5, h6, hse]
  · intro code input O fs d c ce r re h1 h2 h3 h4 h5
    rw [execute_dispatch_c]
    refine ⟨by simp [execute_c_cpp, h1, ccBody, h2, h3, h4, h5], ?_, ?_⟩
    · by_cases hse : r.stderr = "" <;>
        simp [execute_c_cpp, h1, ccBody, h2, h3, h4, h5, hse]
    · intro hse
      simp [execute_c_cpp, h1, ccBody, h2, h3, h4, h5, hse]

/-- Oracle for a Python run that exits zero while also writing a warning
to its standard error stream. -/
def oracleStderrWarn : ExecOracle :=
  { oracle0 with py :=
      { runEv := .completed
          { returncode := 0, stdout := "hi\n", stderr := "warning" } 1 } }

/-- Witness for C10: exit status zero with nonempty stderr still counts
as success, and the stderr text is surfaced in `error`. -/
theorem c10_witness :
    (execute "python" "x" "" oracleStderrWarn []).result.success = true ∧
    (execute "python" "x" "" oracleStderrWarn []).result.error = some "warning" :=
  ⟨((c10_success_solely_by_exit_status.1 "x" "" oracleStderrWarn []
      { returncode := 0, stdout := "hi\n", stderr := "warning" } 1 rfl).1).mpr rfl,
    ((c10_success_solely_by_exit_status.1 "x" "" oracleStderrWarn []
      { returncode := 0, stdout := "hi\n", stderr := "warning" } 1 rfl).2.2) (by decide)⟩

end CodeExecutor
